import Mathlib

/-!
# Verification of the OptiExtract file-upload service

A shallow embedding of `backend/main.py`, `backend/models.py`,
`backend/schemas.py` and `backend/database.py`, together with proofs of the
behavioural claims about the upload and listing endpoints.

Modelling conventions:
* Byte strings are `List Nat` (no byte arithmetic occurs in the source).
* Timestamps (`datetime.utcnow`) are `Nat`, supplied as a parameter `now`.
* The random UUID token (`uuid.uuid4()`) is supplied as a parameter `token`.
* The filesystem (the upload directory) is an association list from storage
  name to byte content; `open(path, "wb")` create-or-truncate semantics are
  `fsWrite`, `Path.unlink` is `fsUnlink`, `Path.exists` is `fsExists`.
* The SQLite store is a list of committed `FileRecord`s plus the
  autoincrement counter `next_id`; the environment's choice of whether a
  database operation raises is the explicit parameter `DbOutcome`.
* Python exceptions are the inductive `PyExc`; the `try` block of
  `upload_document` is a function into `Except`, whose error value carries
  the server state at the raise point (file-system effects performed before
  the raise survive it, exactly as in Python), and the `except` clauses are
  the match arms on that error, in source order.
-/

namespace FileUploadService

/-- Byte content of an uploaded file. -/
abbrev Bytes := List Nat

/-- `MAX_FILE_SIZE = 50 * 1024 * 1024  # 50 MB limit` (main.py line 38). -/
def MAX_FILE_SIZE : Nat := 50 * 1024 * 1024

/-! ## Data model (`models.py`): the `files` table -/

/-- One row of the `files` table (`models.File`): id (autoincrement primary
key), original filename, unique system filename, size in bytes, upload
timestamp. -/
structure FileRecord where
  id : Nat
  original_filename : String
  system_filename : String
  file_size_bytes : Nat
  uploaded_at : Nat
deriving Repr, DecidableEq

/-! ## Response schemas (`schemas.py`) -/

/-- `schemas.FileMetadata`: the wire-facing view of a record, all five
fields. (`uploaded_at` is `Optional[datetime]` in the source; committed rows
always carry a timestamp, so the model keeps it total.) -/
structure FileMetadata where
  id : Nat
  original_filename : String
  system_filename : String
  file_size_bytes : Nat
  uploaded_at : Nat
deriving Repr, DecidableEq

/-- `FileMetadata.from_orm`: the ORM-to-schema conversion, copying all five
attributes. -/
def FileMetadata.from_orm (r : FileRecord) : FileMetadata :=
  { id := r.id
    original_filename := r.original_filename
    system_filename := r.system_filename
    file_size_bytes := r.file_size_bytes
    uploaded_at := r.uploaded_at }

/-- Outcome of the upload endpoint as seen on the wire: a 201
`FileUploadResponse` or an `HTTPException` with a status code and detail. -/
inductive UploadResponse where
  | created (message : String) (file_id : Nat)
  | httpError (statusCode : Nat) (detail : String)
deriving Repr, DecidableEq

/-- HTTP status of an upload response (`status.HTTP_201_CREATED` on the
success path of the route). -/
def UploadResponse.status : UploadResponse → Nat
  | .created _ _ => 201
  | .httpError c _ => c

/-- Outcome of the listing endpoint: a 200 `FileListResponse` or an
`HTTPException`. -/
inductive FilesResponse where
  | ok (files : List FileMetadata) (count : Nat)
  | httpError (statusCode : Nat) (detail : String)
deriving Repr, DecidableEq

/-! ## Filesystem model (the upload directory) -/

/-- The upload directory: storage name to byte content. -/
abbrev FileSystem := List (String × Bytes)

/-- Content of the file with the given name, if present. -/
def fsLookup : FileSystem → String → Option Bytes
  | [], _ => none
  | (m, b) :: rest, n => if m = n then some b else fsLookup rest n

/-- `Path.exists()`. -/
def fsExists (fs : FileSystem) (n : String) : Bool :=
  (fsLookup fs n).isSome

/-- `open(path, "wb")` followed by `f.write(content)`: create the file, or
truncate and overwrite an existing one. -/
def fsWrite : FileSystem → String → Bytes → FileSystem
  | [], n, c => [(n, c)]
  | (m, b) :: rest, n, c =>
      if m = n then (n, c) :: rest else (m, b) :: fsWrite rest n c

/-- `Path.unlink()`: remove the file with the given name. -/
def fsUnlink : FileSystem → String → FileSystem
  | [], _ => []
  | (m, b) :: rest, n => if m = n then rest else (m, b) :: fsUnlink rest n

/-! ## Server state -/

/-- The mutable state shared by requests: the upload directory and the
SQLite store (committed rows plus the autoincrement counter). -/
structure ServerState where
  fs : FileSystem
  records : List FileRecord
  next_id : Nat
deriving Repr, DecidableEq

/-- Fresh deployment: empty upload directory, empty `files` table, first
autoincrement id 1. -/
def initialState : ServerState := { fs := [], records := [], next_id := 1 }

/-! ## `Path(filename).suffix` (pathlib) -/

/-- The final path component: the characters after the last `/`. -/
def pathNameChars (cs : List Char) : List Char :=
  ((cs.reverse.takeWhile (fun c => c ≠ '/'))).reverse

/-- Index of the last `.` in a name (`str.rfind`), `none` when absent. -/
def lastDotIndex (cs : List Char) : Option Nat :=
  match cs.reverse.findIdx? (fun c => c = '.') with
  | none => none
  | some j => some (cs.length - 1 - j)

/-- `pathlib` suffix rule on the name: `name[i:]` when `0 < i < len(name)-1`
for `i = name.rfind('.')`, else the empty string. -/
def suffixChars (name : List Char) : List Char :=
  match lastDotIndex name with
  | none => []
  | some i => if 0 < i ∧ i < name.length - 1 then name.drop i else []

/-- `Path(filename).suffix` (main.py line 103). -/
def pySuffix (filename : String) : String :=
  String.mk (suffixChars (pathNameChars filename.data))

/-! ## Exceptions and environment -/

/-- The Python exceptions that reach the `except` clauses of
`upload_document` / `get_files`. -/
inductive PyExc where
  | httpException (statusCode : Nat) (detail : String)
  | sqlAlchemyError (msg : String)
  | otherError (msg : String)
deriving Repr, DecidableEq

/-- `str(e)`. Starlette's `HTTPException.__str__` is
`f"{self.status_code}: {self.detail}"`. -/
def pyStr : PyExc → String
  | .httpException c d => toString c ++ ": " ++ d
  | .sqlAlchemyError m => m
  | .otherError m => m

/-- Environment choice for the database operations of one request: they
succeed, raise a `SQLAlchemyError`, or raise some other unexpected
exception. -/
inductive DbOutcome where
  | ok
  | sqlError (msg : String)
  | unexpectedError (msg : String)
deriving Repr, DecidableEq

/-- Observable side effects of a request, in the order they happen. -/
inductive Event where
  | fileWritten (name : String) (content : Bytes)
  | recordInserted (id : Nat)
  | fileDeleted (name : String)
deriving Repr, DecidableEq

/-! ## The upload endpoint (`upload_document`, main.py lines 64–141) -/

/-- State and effects carried out of the `try` block by a raised
exception: the exception, the server state at the raise point, the value of
the local `file_path` if it was assigned, and the effects so far. -/
structure TryErr where
  exc : PyExc
  st : ServerState
  file_path : Option String
  events : List Event
deriving Repr, DecidableEq

/-- The body of the `try` block (main.py lines 85–125): size checks, storage
name generation, file write, metadata insert and commit. Raised exceptions
carry the state at the raise point. -/
def uploadTry (st : ServerState) (filename : String) (content : Bytes)
    (token : String) (now : Nat) (dbOutcome : DbOutcome) :
    Except TryErr (UploadResponse × ServerState × List Event) :=
  if content.length > MAX_FILE_SIZE then
    .error ⟨.httpException 400 "File too large. Maximum size is 50 MB", st, none, []⟩
  else if content.length = 0 then
    .error ⟨.httpException 400 "Empty file is not allowed", st, none, []⟩
  else
    let file_extension := pySuffix filename
    let system_filename := token ++ file_extension
    let fs1 := fsWrite st.fs system_filename content
    let st1 : ServerState := { st with fs := fs1 }
    let evs := [Event.fileWritten system_filename content]
    match dbOutcome with
    | .sqlError m => .error ⟨.sqlAlchemyError m, st1, some system_filename, evs⟩
    | .unexpectedError m => .error ⟨.otherError m, st1, some system_filename, evs⟩
    | .ok =>
        let new_file : FileRecord :=
          { id := st.next_id
            original_filename := filename
            system_filename := system_filename
            file_size_bytes := content.length
            uploaded_at := now }
        let st2 : ServerState :=
          { st1 with records := st1.records ++ [new_file], next_id := st.next_id + 1 }
        .ok (.created "File uploaded successfully" new_file.id, st2,
          evs ++ [Event.recordInserted new_file.id])

/-- Result of one call to the upload endpoint. -/
structure UploadOutcome where
  response : UploadResponse
  st : ServerState
  events : List Event
deriving Repr, DecidableEq

/-- `upload_document`: the filename check (outside the `try`, so its 400
propagates), then the `try` body, then the `except SQLAlchemyError` and
`except Exception` clauses in source order. A 400 `HTTPException` raised
inside the `try` is an `Exception`, so it is caught by the second clause and
re-raised as a 500. -/
def upload_document (st : ServerState) (filename? : Option String)
    (content : Bytes) (token : String) (now : Nat) (dbOutcome : DbOutcome) :
    UploadOutcome :=
  -- `if not file.filename:` — falsy for a missing filename and for ""
  if filename?.getD "" = "" then
    { response := .httpError 400 "No filename provided", st := st, events := [] }
  else
    match uploadTry st (filename?.getD "") content token now dbOutcome with
    | .ok (resp, st', evs) => { response := resp, st := st', events := evs }
    | .error err =>
        match err.exc with
        | .sqlAlchemyError m =>
            -- db.rollback(); uncommitted adds never reached `records`
            match err.file_path with
            | some p =>
                if fsExists err.st.fs p then
                  { response := .httpError 500 ("Database error: " ++ m)
                    st := { err.st with fs := fsUnlink err.st.fs p }
                    events := err.events ++ [Event.fileDeleted p] }
                else
                  { response := .httpError 500 ("Database error: " ++ m)
                    st := err.st, events := err.events }
            | none =>
                { response := .httpError 500 ("Database error: " ++ m)
                  st := err.st, events := err.events }
        | e =>
            -- `except Exception as e`: rollback, no file cleanup
            { response := .httpError 500 ("Error uploading file: " ++ pyStr e)
              st := err.st, events := err.events }

/-! ## The listing endpoint (`get_files`, main.py lines 153–183) -/

/-- The `ORDER BY uploaded_at DESC` relation: the earlier row's timestamp is
at least the later row's. -/
def recDesc (a b : FileRecord) : Prop := b.uploaded_at ≤ a.uploaded_at

instance : DecidableRel recDesc := fun a b => Nat.decLe b.uploaded_at a.uploaded_at

instance : IsTotal FileRecord recDesc :=
  ⟨fun a b => Nat.le_total b.uploaded_at a.uploaded_at⟩

instance : IsTrans FileRecord recDesc :=
  ⟨fun _ _ _ hab hbc => Nat.le_trans hbc hab⟩

/-- `db.query(models.File).order_by(models.File.uploaded_at.desc()).all()`:
the committed rows, ordered by `uploaded_at` descending. -/
def orderByUploadedAtDesc (records : List FileRecord) : List FileRecord :=
  List.insertionSort recDesc records

/-- `get_files`: query all rows ordered by `uploaded_at` descending, convert
each to `FileMetadata`, return the list with its count; database errors map
to 500. The state is returned unchanged (the endpoint only reads). -/
def get_files (st : ServerState) (dbOutcome : DbOutcome) :
    FilesResponse × ServerState :=
  match dbOutcome with
  | .sqlError m => (.httpError 500 ("Database error: " ++ m), st)
  | .unexpectedError m => (.httpError 500 ("Error retrieving files: " ++ m), st)
  | .ok =>
      let files := orderByUploadedAtDesc st.records
      let file_metadata_list := files.map FileMetadata.from_orm
      (.ok file_metadata_list file_metadata_list.length, st)

/-! ## Session lifecycle (`get_db`, main.py lines 41–50) -/

/-- Counts of sessions checked out of `SessionLocal` and closed. -/
structure SessionLog where
  opened : Nat
  closed : Nat
deriving Repr, DecidableEq

/-- A request to one of the two endpoints that depend on `get_db`. -/
inductive Request where
  | uploadDoc (filename? : Option String) (content : Bytes) (token : String) (now : Nat)
  | listFiles
deriving Repr

/-- The response of a dispatched request. -/
inductive ResponseData where
  | upload (r : UploadResponse)
  | list (r : FilesResponse)
deriving Repr, DecidableEq

/-- One full request through the `get_db` dependency:
`db = SessionLocal()` (session acquired), the handler runs to completion
(every outcome, exceptional ones included, is a value here), and the
`finally: db.close()` releases the session. -/
def handleRequest (st : ServerState) (log : SessionLog) (req : Request)
    (dbOutcome : DbOutcome) : ResponseData × ServerState × SessionLog :=
  let log1 : SessionLog := { log with opened := log.opened + 1 }
  let (resp, st') :=
    match req with
    | .uploadDoc f c t n =>
        let o := upload_document st f c t n dbOutcome
        (ResponseData.upload o.response, o.st)
    | .listFiles =>
        let (r, st') := get_files st dbOutcome
        (ResponseData.list r, st')
  let log2 : SessionLog := { log1 with closed := log1.closed + 1 }
  (resp, st', log2)

/-! ## Helper lemmas about the filesystem map -/

theorem fsLookup_fsWrite_self (fs : FileSystem) (n : String) (c : Bytes) :
    fsLookup (fsWrite fs n c) n = some c := by
  induction fs with
  | nil => simp [fsWrite, fsLookup]
  | cons hd tl ih =>
      obtain ⟨m, b⟩ := hd
      by_cases h : m = n <;> simp [fsWrite, fsLookup, h, ih]

theorem fsExists_fsWrite_self (fs : FileSystem) (n : String) (c : Bytes) :
    fsExists (fsWrite fs n c) n = true := by
  simp [fsExists, fsLookup_fsWrite_self]

theorem fsExists_false_iff (fs : FileSystem) (n : String) :
    fsExists fs n = false ↔ fsLookup fs n = none := by
  cases h : fsLookup fs n <;> simp [fsExists, h]

theorem fsWrite_of_not_exists (fs : FileSystem) (n : String) (c : Bytes)
    (h : fsExists fs n = false) : fsWrite fs n c = fs ++ [(n, c)] := by
  induction fs with
  | nil => simp [fsWrite]
  | cons hd tl ih =>
      obtain ⟨m, b⟩ := hd
      rw [fsExists_false_iff] at h ih
      simp only [fsLookup] at h
      by_cases hm : m = n
      · simp [hm] at h
      · simp only [fsWrite, if_neg hm, List.cons_append, List.cons.injEq, true_and]
        exact ih (by simpa [hm] using h)

theorem fsUnlink_append_single (fs : FileSystem) (n : String) (c : Bytes)
    (h : fsExists fs n = false) : fsUnlink (fs ++ [(n, c)]) n = fs := by
  induction fs with
  | nil => simp [fsUnlink]
  | cons hd tl ih =>
      obtain ⟨m, b⟩ := hd
      rw [fsExists_false_iff] at h ih
      simp only [fsLookup] at h
      by_cases hm : m = n
      · simp [hm] at h
      · simp only [List.cons_append, fsUnlink, if_neg hm, List.cons.injEq, true_and]
        exact ih (by simpa [hm] using h)

theorem fsUnlink_fsWrite_of_not_exists (fs : FileSystem) (n : String) (c : Bytes)
    (h : fsExists fs n = false) : fsUnlink (fsWrite fs n c) n = fs := by
  rw [fsWrite_of_not_exists fs n c h, fsUnlink_append_single fs n c h]

/-! ## Claim theorems -/

/-- C1: an upload with a non-empty filename and a non-empty payload of at
most `MAX_FILE_SIZE` bytes (with a fresh storage name, as UUID generation
guarantees in practice) succeeds: the response is 201 carrying the
store-assigned id and the confirmation message, the upload directory gains
exactly one new file stored under the generated name, and exactly one new
`FileRecord` is appended whose `file_size_bytes` is the exact byte length of
the payload. -/
theorem uploadDocument_success (st : ServerState) (fname : String)
    (content : Bytes) (token : String) (now : Nat)
    (hname : fname ≠ "")
    (hpos : 0 < content.length)
    (hmax : content.length ≤ MAX_FILE_SIZE)
    (hfresh : fsExists st.fs (token ++ pySuffix fname) = false) :
    (upload_document st (some fname) content token now .ok).response =
        .created "File uploaded successfully" st.next_id ∧
    (upload_document st (some fname) content token now .ok).response.status = 201 ∧
    (upload_document st (some fname) content token now .ok).st.fs =
        st.fs ++ [(token ++ pySuffix fname, content)] ∧
    (upload_document st (some fname) content token now .ok).st.records =
        st.records ++
          [⟨st.next_id, fname, token ++ pySuffix fname, content.length, now⟩] := by
  have h1 : ¬ content.length > MAX_FILE_SIZE := not_lt.mpr hmax
  have h2 : ¬ content.length = 0 := Nat.pos_iff_ne_zero.mp hpos
  simp [upload_document, uploadTry, hname, h1, h2, UploadResponse.status,
    fsWrite_of_not_exists st.fs _ content hfresh]

/-- C1 witness: the successful upload at a concrete input. -/
theorem uploadDocument_success_witness :
    (("report.pdf" : String) ≠ "" ∧ 0 < ([1, 2, 3] : Bytes).length ∧
      ([1, 2, 3] : Bytes).length ≤ MAX_FILE_SIZE ∧
      fsExists initialState.fs ("tok" ++ pySuffix "report.pdf") = false) ∧
    ((upload_document initialState (some "report.pdf") [1, 2, 3] "tok" 7 .ok).response =
        .created "File uploaded successfully" initialState.next_id ∧
      (upload_document initialState (some "report.pdf") [1, 2, 3] "tok" 7 .ok).response.status = 201 ∧
      (upload_document initialState (some "report.pdf") [1, 2, 3] "tok" 7 .ok).st.fs =
        initialState.fs ++ [("tok" ++ pySuffix "report.pdf", [1, 2, 3])] ∧
      (upload_document initialState (some "report.pdf") [1, 2, 3] "tok" 7 .ok).st.records =
        initialState.records ++
          [⟨initialState.next_id, "report.pdf", "tok" ++ pySuffix "report.pdf", ([1, 2, 3] : Bytes).length, 7⟩]) :=
  ⟨⟨by decide, by decide, by decide, by decide⟩,
    uploadDocument_success initialState "report.pdf" [1, 2, 3] "tok" 7
      (by decide) (by decide) (by decide) (by decide)⟩

/-- C2: at an empty (zero-byte) payload the code raises the 400
`HTTPException` inside the `try` block, where the blanket
`except Exception` clause catches it and re-raises it as a 500, so the
response status is 500 (the spec and the route's own `responses`
documentation say 400); no file is written and no record is inserted. -/
theorem uploadDocument_emptyPayload_returns500 :
    (upload_document initialState (some "a.txt") [] "tok" 0 .ok).response =
        .httpError 500 "Error uploading file: 400: Empty file is not allowed" ∧
    (upload_document initialState (some "a.txt") [] "tok" 0 .ok).response.status = 500 ∧
    (upload_document initialState (some "a.txt") [] "tok" 0 .ok).st = initialState ∧
    (upload_document initialState (some "a.txt") [] "tok" 0 .ok).events = [] :=
  ⟨rfl, rfl, rfl, rfl⟩

/-- C7: when no filename is present (the file part carries no filename, or
an empty one — the check `if not file.filename` sits outside the `try`
block, so its 400 propagates), the upload returns 400 and neither the
filesystem nor the store changes, for every payload and every database
outcome. -/
theorem uploadDocument_missingFilename (st : ServerState)
    (filename? : Option String) (content : Bytes) (token : String) (now : Nat)
    (dbOutcome : DbOutcome)
    (h : filename? = none ∨ filename? = some "") :
    (upload_document st filename? content token now dbOutcome).response =
        .httpError 400 "No filename provided" ∧
    (upload_document st filename? content token now dbOutcome).response.status = 400 ∧
    (upload_document st filename? content token now dbOutcome).st = st ∧
    (upload_document st filename? content token now dbOutcome).events = [] := by
  rcases h with h | h <;> subst h <;>
    simp [upload_document, UploadResponse.status]

/-- C7 witness: the missing-filename rejection at a concrete input. -/
theorem uploadDocument_missingFilename_witness :
    ((none : Option String) = none ∨ (none : Option String) = some "") ∧
    ((upload_document initialState none [1] "tok" 0 .ok).response =
        .httpError 400 "No filename provided" ∧
      (upload_document initialState none [1] "tok" 0 .ok).response.status = 400 ∧
      (upload_document initialState none [1] "tok" 0 .ok).st = initialState ∧
      (upload_document initialState none [1] "tok" 0 .ok).events = []) :=
  ⟨Or.inl rfl,
    uploadDocument_missingFilename initialState none [1] "tok" 0 .ok (Or.inl rfl)⟩

/-- Oversized-payload path of the upload handler: the strict size check
raises a 400 `HTTPException` inside the `try`, the blanket
`except Exception` clause catches it and re-raises a 500, with no change to
the filesystem or the store. -/
theorem uploadDocument_tooLarge (st : ServerState) (fname : String)
    (content : Bytes) (token : String) (now : Nat) (dbOutcome : DbOutcome)
    (hname : fname ≠ "")
    (hbig : content.length > MAX_FILE_SIZE) :
    upload_document st (some fname) content token now dbOutcome =
      { response := .httpError 500
          "Error uploading file: 400: File too large. Maximum size is 50 MB"
        st := st
        events := [] } := by
  simp [upload_document, uploadTry, hname, hbig, pyStr]
  rfl

/-- Accepted-size path of the upload handler at a valid input: the response
status is 201. -/
theorem uploadDocument_acceptedSize_status (st : ServerState) (fname : String)
    (content : Bytes) (token : String) (now : Nat)
    (hname : fname ≠ "")
    (hpos : 0 < content.length)
    (hmax : content.length ≤ MAX_FILE_SIZE) :
    (upload_document st (some fname) content token now .ok).response.status = 201 := by
  have h1 : ¬ content.length > MAX_FILE_SIZE := not_lt.mpr hmax
  have h2 : ¬ content.length = 0 := Nat.pos_iff_ne_zero.mp hpos
  simp [upload_document, uploadTry, hname, h1, h2, UploadResponse.status]

/-- C3: at a payload one byte over `MAX_FILE_SIZE` the code raises the 400
`HTTPException` inside the `try` block, where the blanket
`except Exception` clause catches it and re-raises it as a 500, so the
response status is 500 (the spec and the route's own `responses`
documentation say 400); no file is written and no record is inserted. The
size check is strict (`len(content) > MAX_FILE_SIZE`), so a payload of
exactly `MAX_FILE_SIZE` bytes is accepted. -/
theorem uploadDocument_oversized_returns500 :
    (upload_document initialState (some "a.txt")
        (List.replicate (MAX_FILE_SIZE + 1) 0) "tok" 0 .ok).response =
      .httpError 500 "Error uploading file: 400: File too large. Maximum size is 50 MB" ∧
    (upload_document initialState (some "a.txt")
        (List.replicate (MAX_FILE_SIZE + 1) 0) "tok" 0 .ok).response.status = 500 ∧
    (upload_document initialState (some "a.txt")
        (List.replicate (MAX_FILE_SIZE + 1) 0) "tok" 0 .ok).st = initialState ∧
    (upload_document initialState (some "a.txt")
        (List.replicate MAX_FILE_SIZE 0) "tok" 0 .ok).response.status = 201 := by
  have hbig : (List.replicate (MAX_FILE_SIZE + 1) (0 : Nat)).length > MAX_FILE_SIZE := by
    rw [List.length_replicate]
    exact Nat.lt_succ_self MAX_FILE_SIZE
  have h := uploadDocument_tooLarge initialState "a.txt"
    (List.replicate (MAX_FILE_SIZE + 1) 0) "tok" 0 .ok (by decide) hbig
  have hpos : 0 < (List.replicate MAX_FILE_SIZE (0 : Nat)).length := by
    rw [List.length_replicate]
    decide
  have hmax : (List.replicate MAX_FILE_SIZE (0 : Nat)).length ≤ MAX_FILE_SIZE := by
    rw [List.length_replicate]
  exact ⟨by rw [h], by rw [h]; rfl, by rw [h],
    uploadDocument_acceptedSize_status initialState "a.txt"
      (List.replicate MAX_FILE_SIZE 0) "tok" 0 (by decide) hpos hmax⟩

/-- C4: when the metadata insert raises a `SQLAlchemyError` after the file
was written, the handler rolls back, deletes the just-written file (the
compensation restores the upload directory exactly, given a fresh storage
name), and responds 500 with the store error message embedded after the
"Database error: " prefix; no record is committed. -/
theorem uploadDocument_dbFailure_cleanup (st : ServerState) (fname : String)
    (content : Bytes) (token : String) (now : Nat) (msg : String)
    (hname : fname ≠ "")
    (hpos : 0 < content.length)
    (hmax : content.length ≤ MAX_FILE_SIZE)
    (hfresh : fsExists st.fs (token ++ pySuffix fname) = false) :
    (upload_document st (some fname) content token now (.sqlError msg)).response =
        .httpError 500 ("Database error: " ++ msg) ∧
    (upload_document st (some fname) content token now (.sqlError msg)).response.status = 500 ∧
    (upload_document st (some fname) content token now (.sqlError msg)).st = st := by
  have h1 : ¬ content.length > MAX_FILE_SIZE := not_lt.mpr hmax
  have h2 : ¬ content.length = 0 := Nat.pos_iff_ne_zero.mp hpos
  simp [upload_document, uploadTry, hname, h1, h2, UploadResponse.status,
    fsExists_fsWrite_self, fsUnlink_fsWrite_of_not_exists st.fs _ content hfresh]

/-- C4 witness: the database-failure compensation at a concrete input. -/
theorem uploadDocument_dbFailure_cleanup_witness :
    (("a.txt" : String) ≠ "" ∧ 0 < ([9] : Bytes).length ∧
      ([9] : Bytes).length ≤ MAX_FILE_SIZE ∧
      fsExists initialState.fs ("tok" ++ pySuffix "a.txt") = false) ∧
    ((upload_document initialState (some "a.txt") [9] "tok" 3 (.sqlError "UNIQUE constraint failed")).response =
        .httpError 500 ("Database error: " ++ "UNIQUE constraint failed") ∧
      (upload_document initialState (some "a.txt") [9] "tok" 3 (.sqlError "UNIQUE constraint failed")).response.status = 500 ∧
      (upload_document initialState (some "a.txt") [9] "tok" 3 (.sqlError "UNIQUE constraint failed")).st = initialState) :=
  ⟨⟨by decide, by decide, by decide, by decide⟩,
    uploadDocument_dbFailure_cleanup initialState "a.txt" [9] "tok" 3
      "UNIQUE constraint failed" (by decide) (by decide) (by decide) (by decide)⟩

/-- C9: when an unexpected non-`SQLAlchemyError` exception occurs after the
file was written, the `except Exception` clause rolls back and responds 500
with the "Error uploading file: " prefix, but performs no file cleanup: the
written file remains on disk while no record is committed. -/
theorem uploadDocument_unexpectedFailure_orphan (st : ServerState)
    (fname : String) (content : Bytes) (token : String) (now : Nat) (msg : String)
    (hname : fname ≠ "")
    (hpos : 0 < content.length)
    (hmax : content.length ≤ MAX_FILE_SIZE) :
    (upload_document st (some fname) content token now (.unexpectedError msg)).response =
        .httpError 500 ("Error uploading file: " ++ msg) ∧
    (upload_document st (some fname) content token now (.unexpectedError msg)).response.status = 500 ∧
    fsLookup (upload_document st (some fname) content token now (.unexpectedError msg)).st.fs
        (token ++ pySuffix fname) = some content ∧
    (upload_document st (some fname) content token now (.unexpectedError msg)).st.records =
        st.records := by
  have h1 : ¬ content.length > MAX_FILE_SIZE := not_lt.mpr hmax
  have h2 : ¬ content.length = 0 := Nat.pos_iff_ne_zero.mp hpos
  simp [upload_document, uploadTry, hname, h1, h2, UploadResponse.status,
    pyStr, fsLookup_fsWrite_self]

/-- C9 witness: the orphaned file at a concrete input. -/
theorem uploadDocument_unexpectedFailure_orphan_witness :
    (("a.txt" : String) ≠ "" ∧ 0 < ([9] : Bytes).length ∧
      ([9] : Bytes).length ≤ MAX_FILE_SIZE) ∧
    ((upload_document initialState (some "a.txt") [9] "tok" 3 (.unexpectedError "boom")).response =
        .httpError 500 ("Error uploading file: " ++ "boom") ∧
      (upload_document initialState (some "a.txt") [9] "tok" 3 (.unexpectedError "boom")).response.status = 500 ∧
      fsLookup (upload_document initialState (some "a.txt") [9] "tok" 3 (.unexpectedError "boom")).st.fs
        ("tok" ++ pySuffix "a.txt") = some [9] ∧
      (upload_document initialState (some "a.txt") [9] "tok" 3 (.unexpectedError "boom")).st.records =
        initialState.records) :=
  ⟨⟨by decide, by decide, by decide⟩,
    uploadDocument_unexpectedFailure_orphan initialState "a.txt" [9] "tok" 3
      "boom" (by decide) (by decide) (by decide)⟩

/-- C10: on a successful upload the file on disk holds exactly the uploaded
bytes (full content equality), and the event trace shows the file write
strictly preceding the metadata insert. -/
theorem uploadDocument_content_exact_write_before_insert (st : ServerState)
    (fname : String) (content : Bytes) (token : String) (now : Nat)
    (hname : fname ≠ "")
    (hpos : 0 < content.length)
    (hmax : content.length ≤ MAX_FILE_SIZE) :
    fsLookup (upload_document st (some fname) content token now .ok).st.fs
        (token ++ pySuffix fname) = some content ∧
    (upload_document st (some fname) content token now .ok).events =
      [Event.fileWritten (token ++ pySuffix fname) content,
       Event.recordInserted st.next_id] := by
  have h1 : ¬ content.length > MAX_FILE_SIZE := not_lt.mpr hmax
  have h2 : ¬ content.length = 0 := Nat.pos_iff_ne_zero.mp hpos
  simp [upload_document, uploadTry, hname, h1, h2, fsLookup_fsWrite_self]

/-- C10 witness: content equality and effect ordering at a concrete input. -/
theorem uploadDocument_content_exact_write_before_insert_witness :
    (("report.pdf" : String) ≠ "" ∧ 0 < ([1, 2, 3] : Bytes).length ∧
      ([1, 2, 3] : Bytes).length ≤ MAX_FILE_SIZE) ∧
    (fsLookup (upload_document initialState (some "report.pdf") [1, 2, 3] "tok" 7 .ok).st.fs
        ("tok" ++ pySuffix "report.pdf") = some [1, 2, 3] ∧
      (upload_document initialState (some "report.pdf") [1, 2, 3] "tok" 7 .ok).events =
        [Event.fileWritten ("tok" ++ pySuffix "report.pdf") [1, 2, 3],
         Event.recordInserted initialState.next_id]) :=
  ⟨⟨by decide, by decide, by decide⟩,
    uploadDocument_content_exact_write_before_insert initialState "report.pdf"
      [1, 2, 3] "tok" 7 (by decide) (by decide) (by decide)⟩

/-- A filename without a path separator is its own final path component. -/
theorem pathNameChars_of_no_slash (cs : List Char) (h : '/' ∉ cs) :
    pathNameChars cs = cs := by
  unfold pathNameChars
  rw [List.takeWhile_eq_self_iff.mpr, List.reverse_reverse]
  intro x hx
  have hxc : x ∈ cs := List.mem_reverse.mp hx
  simp only [ne_eq, decide_eq_true_eq]
  exact fun he => h (he ▸ hxc)

/-- A name without a dot has no last-dot index. -/
theorem lastDotIndex_eq_none (cs : List Char) (h : '.' ∉ cs) :
    lastDotIndex cs = none := by
  have hf : cs.reverse.findIdx? (fun c => c = '.') = none := by
    rw [List.findIdx?_eq_none_iff]
    intro x hx
    have hxc : x ∈ cs := List.mem_reverse.mp hx
    simp only [decide_eq_false_iff_not]
    exact fun he => h (he ▸ hxc)
  simp [lastDotIndex, hf]

/-- C5: the listing endpoint returns every committed record, converted to a
`FileMetadata` view preserving all five fields, in non-increasing
`uploaded_at` order, with `count` equal to the length of the returned list,
and leaves the server state unchanged. -/
theorem getFiles_ordered_complete (st : ServerState) :
    get_files st .ok =
      (.ok ((orderByUploadedAtDesc st.records).map FileMetadata.from_orm)
        ((orderByUploadedAtDesc st.records).map FileMetadata.from_orm).length, st) ∧
    ((orderByUploadedAtDesc st.records).map FileMetadata.from_orm).Perm
      (st.records.map FileMetadata.from_orm) ∧
    List.Pairwise (fun a b : FileMetadata => b.uploaded_at ≤ a.uploaded_at)
      ((orderByUploadedAtDesc st.records).map FileMetadata.from_orm) ∧
    ∀ r : FileRecord, FileMetadata.from_orm r =
      ⟨r.id, r.original_filename, r.system_filename, r.file_size_bytes, r.uploaded_at⟩ := by
  refine ⟨rfl, ?_, ?_, fun r => rfl⟩
  · exact (List.perm_insertionSort recDesc st.records).map _
  · have hs : List.Pairwise recDesc (orderByUploadedAtDesc st.records) :=
      List.sorted_insertionSort recDesc st.records
    exact List.Pairwise.map _ (fun a b hab => hab) hs

/-- C6: on an accepted upload the stored record's `system_filename` is the
random token concatenated with the original filename's extension, where the
extension follows `Path(...).suffix`: empty when the filename has no dot,
empty when the only candidate dot leads the name (a dotfile) or trails it,
and otherwise the substring starting at the last dot. -/
theorem uploadDocument_storageName (st : ServerState) (fname : String)
    (content : Bytes) (token : String) (now : Nat)
    (hname : fname ≠ "")
    (hpos : 0 < content.length)
    (hmax : content.length ≤ MAX_FILE_SIZE)
    (hslash : '/' ∉ fname.data) :
    (upload_document st (some fname) content token now .ok).st.records =
        st.records ++
          [⟨st.next_id, fname, token ++ pySuffix fname, content.length, now⟩] ∧
    ('.' ∉ fname.data → pySuffix fname = "") ∧
    (∀ i, lastDotIndex fname.data = some i → 0 < i → i < fname.data.length - 1 →
      pySuffix fname = String.mk (fname.data.drop i)) ∧
    (∀ i, lastDotIndex fname.data = some i → i = 0 ∨ i = fname.data.length - 1 →
      pySuffix fname = "") := by
  have h1 : ¬ content.length > MAX_FILE_SIZE := not_lt.mpr hmax
  have h2 : ¬ content.length = 0 := Nat.pos_iff_ne_zero.mp hpos
  have hpn : pathNameChars fname.data = fname.data :=
    pathNameChars_of_no_slash fname.data hslash
  refine ⟨?_, ?_, ?_, ?_⟩
  · simp [upload_document, uploadTry, hname, h1, h2]
  · intro hdot
    simp only [pySuffix, hpn, suffixChars, lastDotIndex_eq_none fname.data hdot]
  · intro i hi h0 hlt
    simp only [pySuffix, hpn, suffixChars, hi]
    rw [if_pos ⟨h0, hlt⟩]
  · intro i hi hedge
    have hnot : ¬ (0 < i ∧ i < fname.data.length - 1) := by
      rcases hedge with h | h
      · exact fun hc => by rw [h] at hc; exact Nat.lt_irrefl 0 hc.1
      · exact fun hc => by rw [h] at hc; exact Nat.lt_irrefl _ hc.2
    simp only [pySuffix, hpn, suffixChars, hi]
    rw [if_neg hnot]

/-- C6 witness: the storage name and extension rule at a concrete input. -/
theorem uploadDocument_storageName_witness :
    (("report.pdf" : String) ≠ "" ∧ 0 < ([1, 2] : Bytes).length ∧
      ([1, 2] : Bytes).length ≤ MAX_FILE_SIZE ∧ '/' ∉ ("report.pdf" : String).data) ∧
    ((upload_document initialState (some "report.pdf") [1, 2] "tok" 7 .ok).st.records =
        initialState.records ++
          [⟨initialState.next_id, "report.pdf", "tok" ++ pySuffix "report.pdf",
            ([1, 2] : Bytes).length, 7⟩] ∧
      ('.' ∉ ("report.pdf" : String).data → pySuffix "report.pdf" = "") ∧
      (∀ i, lastDotIndex ("report.pdf" : String).data = some i → 0 < i →
        i < ("report.pdf" : String).data.length - 1 →
        pySuffix "report.pdf" = String.mk (("report.pdf" : String).data.drop i)) ∧
      (∀ i, lastDotIndex ("report.pdf" : String).data = some i →
        i = 0 ∨ i = ("report.pdf" : String).data.length - 1 →
        pySuffix "report.pdf" = "")) :=
  ⟨⟨by decide, by decide, by decide, by decide⟩,
    uploadDocument_storageName initialState "report.pdf" [1, 2] "tok" 7
      (by decide) (by decide) (by decide) (by decide)⟩

/-- C8: every request to either endpoint checks out exactly one database
session and closes exactly one, whatever the request and whatever the
database outcome — the `finally` clause of `get_db` runs on every path. -/
theorem handleRequest_session_lifecycle (st : ServerState) (log : SessionLog)
    (req : Request) (dbOutcome : DbOutcome) :
    ((handleRequest st log req dbOutcome).2.2).opened = log.opened + 1 ∧
    ((handleRequest st log req dbOutcome).2.2).closed = log.closed + 1 := by
  cases req <;> simp [handleRequest]

end FileUploadService
